import Mathlib

/-!
# Verification of the LoStack streaming action console (`TerminalModal`)

Shallow embedding of the `TerminalModal` class from
`src/app/static/js/main.js`.  Each method of the class becomes a pure
state transformer on `TMState`; observable side effects (creating and
closing `EventSource` connections, page reloads, scrolling, toasts,
console logging) are recorded in an explicit effect trace.  The ANSI
renderer `ansi_up.ansi_to_html` is an external library, so every
transformer that renders text is parameterized by a `render` function.
-/

/-- Observable side effects performed by the console, in order. -/
inductive Effect where
  | esCreate (url : String)
  | esClose
  | reload
  | scrollBottom
  | toast (id : String)
  | consoleLog
  | consoleError
  deriving Repr, DecidableEq

/-- The mutable state of the `TerminalModal` instance.

* `log` — the rendered transcript (`this.log`'s children), one entry per
  `appendMessage` call.
* `es` — `this.es`: `some i` when the field holds the EventSource with
  identity `i`, `none` when it is `null`.
* `nextId` — allocator for EventSource identities.
* `liveSources` — identities of every EventSource that has been
  constructed and not yet had `close()` called on it.
* remaining fields mirror the instance fields of the class. -/
structure TMState where
  log : List String
  es : Option Nat
  nextId : Nat
  liveSources : List Nat
  autoscroll : Bool
  toggleChecked : Bool
  wrapLines : Bool
  isPaused : Bool
  messageBuffer : List String
  streamEnded : Bool
  streamEndTimeout : Bool
  reloadOnClose : Bool
  statusText : String
  effects : List Effect
  deriving Repr, DecidableEq

/-- The state of a freshly constructed `TerminalModal` (the constructor). -/
def initialState : TMState :=
  { log := []
    es := none
    nextId := 0
    liveSources := []
    autoscroll := true
    toggleChecked := true
    wrapLines := false
    isPaused := false
    messageBuffer := []
    streamEnded := false
    streamEndTimeout := false
    reloadOnClose := false
    statusText := ""
    effects := [] }

/-- The synthetic completion marker appended by `handleStreamEnd`. -/
def streamCompletedMarker : String := "\x1b[32m\nStream completed\x1b[0m"

/-- `appendMessage(data)`: render the chunk, append it to the transcript,
and scroll to the bottom when autoscroll is on. -/
def appendMessage (render : String → String) (data : String) (s : TMState) : TMState :=
  let s1 := { s with log := s.log ++ [render data] }
  if s1.autoscroll then
    { s1 with effects := s1.effects ++ [Effect.scrollBottom] }
  else s1

/-- The `es.onmessage` handler: buffer the chunk while paused, otherwise
append it. -/
def onmessage (render : String → String) (data : String) (s : TMState) : TMState :=
  if s.isPaused then
    { s with messageBuffer := s.messageBuffer ++ [data] }
  else
    appendMessage render data s

/-- `handleStreamEnd()`: guarded by `streamEnded`; append the completion
marker, set the status badge, close and null the EventSource, and set
`reloadOnClose`. -/
def handleStreamEnd (render : String → String) (s : TMState) : TMState :=
  if s.streamEnded then s
  else
    let s1 := { s with streamEnded := true }
    let s2 := appendMessage render streamCompletedMarker s1
    let s3 := { s2 with statusText := "Completed" }
    let s4 :=
      match s3.es with
      | some i =>
          { s3 with es := none
                    liveSources := s3.liveSources.filter (fun j => j ≠ i)
                    effects := s3.effects ++ [Effect.esClose] }
      | none => s3
    { s4 with reloadOnClose := true }

/-- The `es.onerror` handler: log the event, then run `handleStreamEnd`. -/
def onerror (render : String → String) (s : TMState) : TMState :=
  handleStreamEnd render { s with effects := s.effects ++ [Effect.consoleLog] }

/-- The `es.onopen` handler: set the status badge to Connected. -/
def onopen (s : TMState) : TMState :=
  { s with statusText := "Connected" }

/-- `initializeEventSource(streamUrl)`: construct a new EventSource and
store it in `this.es`.  The previous value of `this.es` is overwritten
without being closed. -/
def initializeEventSource (url : String) (s : TMState) : TMState :=
  { s with es := some s.nextId
           nextId := s.nextId + 1
           liveSources := s.liveSources ++ [s.nextId]
           effects := s.effects ++ [Effect.esCreate url] }

/-- `launch(streamUrl)`: wire up listeners, open the EventSource, show the
modal, clear the transcript, reset `streamEnded` and `reloadOnClose`, and
set the status badge to Connecting. -/
def launch (render : String → String) (url : String) (s : TMState) : TMState :=
  let s1 := initializeEventSource url s
  let s2 := { s1 with log := [], streamEnded := false, reloadOnClose := false }
  { s2 with statusText := "Connecting..." }

/-- Drain `messageBuffer` front to back, appending each buffered chunk
(the `while (this.messageBuffer.length > 0)` loop in `togglePause`). -/
def drainBuffer (render : String → String) (s : TMState) : TMState :=
  s.messageBuffer.foldl (fun t d => appendMessage render d t)
    { s with messageBuffer := [] }

/-- `togglePause()`: flip the pause flag; on resume, replay every buffered
chunk in FIFO order; always show the pause/resume toast. -/
def togglePause (render : String → String) (s : TMState) : TMState :=
  let s1 := { s with isPaused := !s.isPaused }
  let s2 := if s1.isPaused then s1 else drainBuffer render s1
  { s2 with effects := s2.effects ++ [Effect.toast "modalPauseToast"] }

/-- `cleanup()`: close the EventSource if any, clear the pending timeout,
and discard the message buffer. -/
def cleanup (s : TMState) : TMState :=
  let s1 :=
    match s.es with
    | some i =>
        { s with es := none
                 liveSources := s.liveSources.filter (fun j => j ≠ i)
                 effects := s.effects ++ [Effect.esClose] }
    | none => s
  { s1 with streamEndTimeout := false, messageBuffer := [] }

/-- The `hidden.bs.modal` listener: run `cleanup` and reload the page when
`reloadOnClose` is set. -/
def hiddenHandler (s : TMState) : TMState :=
  let s1 := cleanup s
  if s1.reloadOnClose then
    { s1 with effects := s1.effects ++ [Effect.reload] }
  else s1

/-- `closeAndReload()` (the Done button): clear the pending timeout, set
`reloadOnClose := true`, and hide the modal, which fires the
`hidden.bs.modal` listener. -/
def closeAndReload (s : TMState) : TMState :=
  hiddenHandler { s with streamEndTimeout := false, reloadOnClose := true }

/-- `copyToClipboard()`: the clipboard write either succeeds (show the
copy toast) or throws (caught; logged via `console.error`).  No other
state is touched. -/
def copyToClipboard (clipboardOk : Bool) (s : TMState) : TMState :=
  if clipboardOk then
    { s with effects := s.effects ++ [Effect.toast "modalCopyToast"] }
  else
    { s with effects := s.effects ++ [Effect.consoleError] }

/-- The `scroll` listener: recompute at-bottom-ness within a 5px
tolerance and, exactly when it differs from `autoscroll`, update both the
flag and the toggle control. -/
def handleScroll (scrollTop clientHeight scrollHeight : Nat) (s : TMState) : TMState :=
  let isAtBottom : Bool := decide (scrollTop + clientHeight ≥ scrollHeight - 5)
  if isAtBottom ≠ s.autoscroll then
    { s with autoscroll := isAtBottom, toggleChecked := isAtBottom }
  else s

/-- External events driving the console, in the order the single-threaded
event loop serializes them. -/
inductive Evt where
  | launchEv (url : String)
  | openEv
  | message (data : String)
  | terminal
  | pauseToggle
  | doneButton
  | copyButton (ok : Bool)
  | scrollEv (scrollTop clientHeight scrollHeight : Nat)
  deriving Repr, DecidableEq

/-- One step of the event loop. -/
def step (render : String → String) (s : TMState) : Evt → TMState
  | Evt.launchEv url => launch render url s
  | Evt.openEv => onopen s
  | Evt.message d => onmessage render d s
  | Evt.terminal => onerror render s
  | Evt.pauseToggle => togglePause render s
  | Evt.doneButton => closeAndReload s
  | Evt.copyButton ok => copyToClipboard ok s
  | Evt.scrollEv st ch sh => handleScroll st ch sh s

/-- Run a sequence of events from a state. -/
def run (render : String → String) (s : TMState) (evs : List Evt) : TMState :=
  evs.foldl (step render) s

/-- The chunk payloads carried by a sequence of events, in order. -/
def chunksOf : List Evt → List String
  | [] => []
  | Evt.message d :: evs => d :: chunksOf evs
  | _ :: evs => chunksOf evs

/-- Events consisting only of chunk delivery and pause/resume toggling
(the alphabet of the pause/resume order-preservation property). -/
def isChunkOrToggle : Evt → Bool
  | Evt.message _ => true
  | Evt.pauseToggle => true
  | _ => false

/-- The event trace of the spec's example scenario: launch endpoint `E`,
two chunks, pause, one chunk, resume, terminal close. -/
def exampleTrace : List Evt :=
  [Evt.launchEv "E", Evt.openEv, Evt.message "building\n", Evt.message "step 1/3\n",
   Evt.pauseToggle, Evt.message "step 2/3\n", Evt.pauseToggle, Evt.terminal]

/-- Number of `close()` calls recorded in an effect trace. -/
def countClose (effs : List Effect) : Nat :=
  (effs.filter (fun e => e = Effect.esClose)).length

/-- Number of page reloads recorded in an effect trace. -/
def countReload (effs : List Effect) : Nat :=
  (effs.filter (fun e => e = Effect.reload)).length

/-- Number of transcript entries equal to a given rendered string. -/
def countEntry (l : List String) (x : String) : Nat :=
  (l.filter (fun y => y = x)).length

/-! ## Projection lemmas for the state transformers -/

@[simp] lemma appendMessage_log (render : String → String) (d : String) (s : TMState) :
    (appendMessage render d s).log = s.log ++ [render d] := by
  by_cases h : s.autoscroll <;> simp [appendMessage, h]

@[simp] lemma appendMessage_messageBuffer (render : String → String) (d : String) (s : TMState) :
    (appendMessage render d s).messageBuffer = s.messageBuffer := by
  by_cases h : s.autoscroll <;> simp [appendMessage, h]

@[simp] lemma appendMessage_isPaused (render : String → String) (d : String) (s : TMState) :
    (appendMessage render d s).isPaused = s.isPaused := by
  by_cases h : s.autoscroll <;> simp [appendMessage, h]

@[simp] lemma appendMessage_streamEnded (render : String → String) (d : String) (s : TMState) :
    (appendMessage render d s).streamEnded = s.streamEnded := by
  by_cases h : s.autoscroll <;> simp [appendMessage, h]

@[simp] lemma appendMessage_es (render : String → String) (d : String) (s : TMState) :
    (appendMessage render d s).es = s.es := by
  by_cases h : s.autoscroll <;> simp [appendMessage, h]

lemma appendMessage_effects (render : String → String) (d : String) (s : TMState) :
    (appendMessage render d s).effects
      = s.effects ++ (if s.autoscroll then [Effect.scrollBottom] else []) := by
  by_cases h : s.autoscroll <;> simp [appendMessage, h]

lemma countClose_append (a b : List Effect) :
    countClose (a ++ b) = countClose a + countClose b := by
  simp [countClose, List.filter_append]

lemma countReload_append (a b : List Effect) :
    countReload (a ++ b) = countReload a + countReload b := by
  simp [countReload, List.filter_append]

lemma countEntry_append (a b : List String) (x : String) :
    countEntry (a ++ b) x = countEntry a x + countEntry b x := by
  simp [countEntry, List.filter_append]

lemma handleStreamEnd_of_ended (render : String → String) (s : TMState)
    (h : s.streamEnded = true) : handleStreamEnd render s = s := by
  simp [handleStreamEnd, h]

lemma handleStreamEnd_streamEnded (render : String → String) (s : TMState) :
    (handleStreamEnd render s).streamEnded = true := by
  by_cases h : s.streamEnded
  · simp [handleStreamEnd, h]
  · simp only [handleStreamEnd, Bool.not_eq_true] at *
    simp only [h, if_false]
    cases hes : (appendMessage render streamCompletedMarker { s with streamEnded := true }).es <;>
      simp [hes, appendMessage_streamEnded]

/-! ## Claim theorems -/

/-- Claim C1: end-of-stream handling runs its side effects at most once —
from a live state (`streamEnded = false`, EventSource present) one
terminal signal appends the completion marker exactly once and closes the
connection exactly once, sets the guard, and every later terminal signal
is a no-op. -/
theorem handleStreamEnd_at_most_once (render : String → String) (s : TMState) (i k : Nat)
    (hEnd : s.streamEnded = false) (hes : s.es = some i) :
    (handleStreamEnd render s).streamEnded = true ∧
    countEntry (handleStreamEnd render s).log (render streamCompletedMarker)
      = countEntry s.log (render streamCompletedMarker) + 1 ∧
    countClose (handleStreamEnd render s).effects = countClose s.effects + 1 ∧
    (handleStreamEnd render)^[k] (handleStreamEnd render s) = handleStreamEnd render s := by
  refine ⟨handleStreamEnd_streamEnded render s, ?_, ?_,
    Function.iterate_fixed
      (handleStreamEnd_of_ended render _ (handleStreamEnd_streamEnded render s)) k⟩ <;>
  · by_cases h : s.autoscroll <;>
      simp [handleStreamEnd, appendMessage, hEnd, hes, h,
        countEntry_append, countClose_append, countEntry, countClose]

/-- Witness for C1 at a freshly launched session and two extra terminal
signals. -/
theorem handleStreamEnd_at_most_once_witness :
    (launch (fun x => x) "E" initialState).streamEnded = false ∧
    (launch (fun x => x) "E" initialState).es = some 0 ∧
    ((handleStreamEnd (fun x => x) (launch (fun x => x) "E" initialState)).streamEnded = true ∧
     countEntry (handleStreamEnd (fun x => x) (launch (fun x => x) "E" initialState)).log
        ((fun x => x) streamCompletedMarker)
       = countEntry (launch (fun x => x) "E" initialState).log
           ((fun x => x) streamCompletedMarker) + 1 ∧
     countClose (handleStreamEnd (fun x => x)
        (launch (fun x => x) "E" initialState)).effects
       = countClose (launch (fun x => x) "E" initialState).effects + 1 ∧
     (handleStreamEnd (fun x => x))^[2]
        (handleStreamEnd (fun x => x) (launch (fun x => x) "E" initialState))
       = handleStreamEnd (fun x => x) (launch (fun x => x) "E" initialState)) :=
  ⟨rfl, rfl, handleStreamEnd_at_most_once (fun x => x) _ 0 2 rfl rfl⟩

/-- Claim C3, counterexample: launching a second endpoint while the first
connection is still live (`Connecting`) does NOT close it — afterwards
two EventSources are live and no `close()` was ever recorded. -/
theorem launch_no_forced_close_counterexample :
    (launch (fun x => x) "E1" initialState).es = some 0 ∧
    (launch (fun x => x) "E1" initialState).streamEnded = false ∧
    (launch (fun x => x) "E2" (launch (fun x => x) "E1" initialState)).liveSources = [0, 1] ∧
    countClose (launch (fun x => x) "E2" (launch (fun x => x) "E1" initialState)).effects = 0 :=
  ⟨rfl, rfl, rfl, rfl⟩

/-- Claim C3, amended: `launch` never closes the prior connection — it
allocates a new EventSource, appends it to the live set, and overwrites
the `es` reference, leaving the number of `close()` calls unchanged, so
two live push connections can coexist after a relaunch. -/
theorem launch_overwrites_without_close (render : String → String) (url : String) (s : TMState) :
    (launch render url s).liveSources = s.liveSources ++ [s.nextId] ∧
    countClose (launch render url s).effects = countClose s.effects ∧
    (launch render url s).es = some s.nextId := by
  simp [launch, initializeEventSource, countClose_append, countClose]

/-- Claim C4, counterexample: dismissing the console via the Done button
before the stream completed, with `reloadOnClose = false`, still sets
`reloadOnClose` to `true` and triggers a page reload. -/
theorem dismissal_sets_reload_counterexample :
    (launch (fun x => x) "E" initialState).reloadOnClose = false ∧
    (launch (fun x => x) "E" initialState).streamEnded = false ∧
    (closeAndReload (launch (fun x => x) "E" initialState)).reloadOnClose = true ∧
    countReload (closeAndReload (launch (fun x => x) "E" initialState)).effects = 1 :=
  ⟨rfl, rfl, rfl, rfl⟩

/-- Claim C4, amended: the Done button (`closeAndReload`, the only
explicit dismissal path) unconditionally sets `reloadOnClose := true`
before hiding, so every such dismissal reloads the page; only the
`hidden.bs.modal` teardown itself leaves `reloadOnClose` at its current
value and reloads exactly when it was already true. -/
theorem dismissal_reload_behavior (s : TMState) :
    (closeAndReload s).reloadOnClose = true ∧
    countReload (closeAndReload s).effects = countReload s.effects + 1 ∧
    (hiddenHandler s).reloadOnClose = s.reloadOnClose ∧
    countReload (hiddenHandler s).effects
      = countReload s.effects + (if s.reloadOnClose then 1 else 0) := by
  cases hes : s.es <;> cases hr : s.reloadOnClose <;>
    simp [closeAndReload, hiddenHandler, cleanup, hes, hr, countReload_append, countReload]

/-- Claim C5, counterexample: `launch` does not reset `pendingChunks` —
launching while a chunk is still buffered from a paused session leaves
the buffer non-empty. -/
theorem launch_keeps_pending_counterexample :
    (launch (fun x => x) "E"
      { initialState with isPaused := true, messageBuffer := ["x"] }).messageBuffer = ["x"] ∧
    (launch (fun x => x) "E"
      { initialState with isPaused := true, messageBuffer := ["x"] }).messageBuffer ≠ [] :=
  ⟨rfl, by decide⟩

/-- Claim C5, amended: every `launch` clears the transcript, resets
`endedOnce` and `reloadOnClose` to `false`, and begins in Connecting, but
leaves `pendingChunks` (and the pause flag) untouched. -/
theorem launch_resets (render : String → String) (url : String) (s : TMState) :
    (launch render url s).log = [] ∧
    (launch render url s).streamEnded = false ∧
    (launch render url s).reloadOnClose = false ∧
    (launch render url s).statusText = "Connecting..." ∧
    (launch render url s).messageBuffer = s.messageBuffer ∧
    (launch render url s).isPaused = s.isPaused := by
  simp [launch, initializeEventSource]

/-! ## Pause/resume order preservation -/

lemma foldl_appendMessage_spec (render : String → String) (l : List String) (t : TMState) :
    (l.foldl (fun u d => appendMessage render d u) t).log = t.log ++ l.map render ∧
    (l.foldl (fun u d => appendMessage render d u) t).messageBuffer = t.messageBuffer ∧
    (l.foldl (fun u d => appendMessage render d u) t).isPaused = t.isPaused := by
  induction l generalizing t with
  | nil => simp
  | cons d l ih =>
    obtain ⟨h1, h2, h3⟩ := ih (appendMessage render d t)
    simp only [List.foldl_cons, List.map_cons]
    exact ⟨by simp [h1], by simp [h2], by simp [h3]⟩

lemma drainBuffer_spec (render : String → String) (s : TMState) :
    (drainBuffer render s).log = s.log ++ s.messageBuffer.map render ∧
    (drainBuffer render s).messageBuffer = [] ∧
    (drainBuffer render s).isPaused = s.isPaused := by
  have h := foldl_appendMessage_spec render s.messageBuffer { s with messageBuffer := [] }
  simpa [drainBuffer] using h

lemma drainBuffer_log (render : String → String) (s : TMState) :
    (drainBuffer render s).log = s.log ++ s.messageBuffer.map render :=
  (drainBuffer_spec render s).1

lemma drainBuffer_messageBuffer (render : String → String) (s : TMState) :
    (drainBuffer render s).messageBuffer = [] :=
  (drainBuffer_spec render s).2.1

lemma drainBuffer_isPaused (render : String → String) (s : TMState) :
    (drainBuffer render s).isPaused = s.isPaused :=
  (drainBuffer_spec render s).2.2

lemma togglePause_spec (render : String → String) (s : TMState) :
    (togglePause render s).isPaused = !s.isPaused ∧
    (togglePause render s).log
      = (if s.isPaused then s.log ++ s.messageBuffer.map render else s.log) ∧
    (togglePause render s).messageBuffer
      = (if s.isPaused then [] else s.messageBuffer) := by
  by_cases hp : s.isPaused <;>
    simp [togglePause, hp, drainBuffer_log, drainBuffer_messageBuffer, drainBuffer_isPaused]

lemma run_chunks_invariant (render : String → String) :
    ∀ (evs : List Evt) (s : TMState),
      (∀ e ∈ evs, isChunkOrToggle e = true) →
      (s.isPaused = false → s.messageBuffer = []) →
      ((run render s evs).log ++ ((run render s evs).messageBuffer).map render
         = s.log ++ s.messageBuffer.map render ++ (chunksOf evs).map render) ∧
      ((run render s evs).isPaused = false → (run render s evs).messageBuffer = []) := by
  intro evs
  induction evs with
  | nil =>
    intro s _ hinv
    exact ⟨by simp [run, chunksOf], by simpa [run] using hinv⟩
  | cons e evs ih =>
    intro s hall hinv
    have he : isChunkOrToggle e = true := hall e (by simp)
    have hall2 : ∀ x ∈ evs, isChunkOrToggle x = true := fun x hx => hall x (by simp [hx])
    have hrun : run render s (e :: evs) = run render (step render s e) evs := by
      simp [run]
    cases e with
    | launchEv url => simp [isChunkOrToggle] at he
    | openEv => simp [isChunkOrToggle] at he
    | terminal => simp [isChunkOrToggle] at he
    | doneButton => simp [isChunkOrToggle] at he
    | copyButton ok => simp [isChunkOrToggle] at he
    | scrollEv st ch sh => simp [isChunkOrToggle] at he
    | message d =>
      by_cases hp : s.isPaused
      · have hstep : step render s (Evt.message d)
            = { s with messageBuffer := s.messageBuffer ++ [d] } := by
          simp [step, onmessage, hp]
        have hinv2 : ({ s with messageBuffer := s.messageBuffer ++ [d] } : TMState).isPaused
            = false → ({ s with messageBuffer := s.messageBuffer ++ [d] } : TMState).messageBuffer
            = [] := by
          intro hfalse
          simp only [TMState.mk.injEq] at hfalse ⊢
          rw [show ({ s with messageBuffer := s.messageBuffer ++ [d] } : TMState).isPaused
            = s.isPaused from rfl] at hfalse
          rw [hp] at hfalse
          exact absurd hfalse (by simp)
        obtain ⟨heq, hend⟩ := ih { s with messageBuffer := s.messageBuffer ++ [d] } hall2 hinv2
        refine ⟨?_, by rwa [hrun, hstep]⟩
        rw [hrun, hstep]
        rw [heq]
        simp [chunksOf]
      · have hp2 : s.isPaused = false := by simpa using hp
        have hb : s.messageBuffer = [] := hinv hp2
        have hstep : step render s (Evt.message d) = appendMessage render d s := by
          simp [step, onmessage, hp2]
        have hinv2 : (appendMessage render d s).isPaused = false →
            (appendMessage render d s).messageBuffer = [] := by
          intro _; simp [hb]
        obtain ⟨heq, hend⟩ := ih (appendMessage render d s) hall2 hinv2
        refine ⟨?_, by rwa [hrun, hstep]⟩
        rw [hrun, hstep]
        rw [heq]
        simp [hb, chunksOf]
    | pauseToggle =>
      obtain ⟨ht1, ht2, ht3⟩ := togglePause_spec render s
      have hstep : step render s Evt.pauseToggle = togglePause render s := by
        simp [step]
      by_cases hp : s.isPaused
      · have hinv2 : (togglePause render s).isPaused = false →
            (togglePause render s).messageBuffer = [] := by
          intro _; simp [ht3, hp]
        obtain ⟨heq, hend⟩ := ih (togglePause render s) hall2 hinv2
        refine ⟨?_, by rwa [hrun, hstep]⟩
        rw [hrun, hstep]
        rw [heq]
        simp [ht2, ht3, hp, chunksOf]
      · have hp2 : s.isPaused = false := by simpa using hp
        have hb : s.messageBuffer = [] := hinv hp2
        have hinv2 : (togglePause render s).isPaused = false →
            (togglePause render s).messageBuffer = [] := by
          intro _; simp [ht3, hp2, hb]
        obtain ⟨heq, hend⟩ := ih (togglePause render s) hall2 hinv2
        refine ⟨?_, by rwa [hrun, hstep]⟩
        rw [hrun, hstep]
        rw [heq]
        simp [ht2, ht3, hp2, chunksOf]

/-- Claim C2: for any sequence of chunk deliveries with arbitrary
pause/resume toggling, starting with an empty pending buffer and ending
unpaused, the transcript equals the renders of all chunks in arrival
order, each exactly once; moreover a chunk arriving while paused is never
rendered — it is enqueued at the back of the pending buffer. -/
theorem transcript_order_preservation (render : String → String) (evs : List Evt)
    (s t : TMState) (d : String)
    (hall : ∀ e ∈ evs, isChunkOrToggle e = true)
    (hbuf : s.messageBuffer = [])
    (hend : (run render s evs).isPaused = false)
    (ht : t.isPaused = true) :
    (run render s evs).log = s.log ++ (chunksOf evs).map render ∧
    (onmessage render d t).log = t.log ∧
    (onmessage render d t).messageBuffer = t.messageBuffer ++ [d] := by
  refine ⟨?_, by simp [onmessage, ht], by simp [onmessage, ht]⟩
  obtain ⟨heq, hinv⟩ := run_chunks_invariant render evs s hall (fun _ => hbuf)
  have hb := hinv hend
  rw [hb] at heq
  simpa [hbuf] using heq

/-- Witness for C2 on the trace: chunk `a`, pause, chunks `b` and `c`,
resume — the transcript is `a`, `b`, `c` in order; plus a paused state
receiving chunk `z` buffers it without rendering. -/
theorem transcript_order_preservation_witness :
    (∀ e ∈ [Evt.message "a", Evt.pauseToggle, Evt.message "b", Evt.message "c",
            Evt.pauseToggle], isChunkOrToggle e = true) ∧
    initialState.messageBuffer = [] ∧
    (run (fun x => x) initialState
      [Evt.message "a", Evt.pauseToggle, Evt.message "b", Evt.message "c",
       Evt.pauseToggle]).isPaused = false ∧
    ({ initialState with isPaused := true } : TMState).isPaused = true ∧
    ((run (fun x => x) initialState
        [Evt.message "a", Evt.pauseToggle, Evt.message "b", Evt.message "c",
         Evt.pauseToggle]).log
       = initialState.log ++ (chunksOf [Evt.message "a", Evt.pauseToggle, Evt.message "b",
           Evt.message "c", Evt.pauseToggle]).map (fun x => x) ∧
     (onmessage (fun x => x) "z" { initialState with isPaused := true }).log
       = ({ initialState with isPaused := true } : TMState).log ∧
     (onmessage (fun x => x) "z" { initialState with isPaused := true }).messageBuffer
       = ({ initialState with isPaused := true } : TMState).messageBuffer ++ ["z"]) :=
  ⟨by decide, rfl, rfl, rfl,
   transcript_order_preservation (fun x => x)
     [Evt.message "a", Evt.pauseToggle, Evt.message "b", Evt.message "c", Evt.pauseToggle]
     initialState { initialState with isPaused := true } "z" (by decide) rfl rfl rfl⟩

/-- Claim C6: the scroll handler recomputes at-bottom-ness within the 5px
tolerance and updates `autoscroll` plus the toggle control exactly when
the computed value differs; appending a chunk scrolls the view to the
newest content if and only if `autoscroll` is true. -/
theorem autoscroll_behavior (render : String → String) (d : String)
    (st ch sh : Nat) (s : TMState) :
    (handleScroll st ch sh s).autoscroll = decide (st + ch ≥ sh - 5) ∧
    (handleScroll st ch sh s
      = if decide (st + ch ≥ sh - 5) = s.autoscroll then s
        else { s with autoscroll := decide (st + ch ≥ sh - 5),
                      toggleChecked := decide (st + ch ≥ sh - 5) }) ∧
    (appendMessage render d s).log = s.log ++ [render d] ∧
    (appendMessage render d s).effects
      = s.effects ++ (if s.autoscroll then [Effect.scrollBottom] else []) := by
  refine ⟨?_, ?_, appendMessage_log render d s, appendMessage_effects render d s⟩
  · by_cases h : decide (st + ch ≥ sh - 5) = s.autoscroll
    · simp only [handleScroll]
      rw [if_neg (fun hne => hne h)]
      exact h.symm
    · simp only [handleScroll]
      rw [if_pos h]
  · by_cases h : decide (st + ch ≥ sh - 5) = s.autoscroll
    · simp only [handleScroll]
      rw [if_neg (fun hne => hne h), if_pos h]
    · simp only [handleScroll]
      rw [if_pos h, if_neg h]

/-- Claim C7: the spec's example scenario — launch `E`, chunks
`"building\n"` and `"step 1/3\n"`, pause, chunk `"step 2/3\n"`, resume,
terminal close — yields the three chunks in order followed by the
completion marker, status Completed, and `reloadOnClose = true`. -/
theorem example_scenario (render : String → String) :
    (run render initialState exampleTrace).log
      = [render "building\n", render "step 1/3\n", render "step 2/3\n",
         render streamCompletedMarker] ∧
    (run render initialState exampleTrace).statusText = "Completed" ∧
    (run render initialState exampleTrace).reloadOnClose = true ∧
    (run render initialState exampleTrace).streamEnded = true :=
  ⟨rfl, rfl, rfl, rfl⟩

/-- Claim C8: a clipboard failure is caught and reported only on the
console channel, never propagated or alerted, and leaves every piece of
session state untouched; success surfaces only the transient copy
toast. -/
theorem clipboard_failure_is_silent (ok : Bool) (s : TMState) :
    (copyToClipboard ok s).log = s.log ∧
    (copyToClipboard ok s).es = s.es ∧
    (copyToClipboard ok s).isPaused = s.isPaused ∧
    (copyToClipboard ok s).messageBuffer = s.messageBuffer ∧
    (copyToClipboard ok s).streamEnded = s.streamEnded ∧
    (copyToClipboard ok s).reloadOnClose = s.reloadOnClose ∧
    (copyToClipboard ok s).statusText = s.statusText ∧
    (copyToClipboard true s).effects = s.effects ++ [Effect.toast "modalCopyToast"] ∧
    (copyToClipboard false s).effects = s.effects ++ [Effect.consoleError] := by
  cases ok <;> simp [copyToClipboard]

/-- Claim C9: neither `cleanup` nor `launch` resets the pause flag, so a
session dismissed while paused leaves the next launch paused: every chunk
of the new stream is enqueued to the pending buffer and nothing is
rendered. -/
theorem pause_survives_relaunch (render : String → String) (url d : String) (s : TMState)
    (h : s.isPaused = true) :
    (cleanup s).isPaused = true ∧
    (launch render url (cleanup s)).isPaused = true ∧
    (onmessage render d (launch render url (cleanup s))).log
      = (launch render url (cleanup s)).log ∧
    (onmessage render d (launch render url (cleanup s))).messageBuffer
      = (launch render url (cleanup s)).messageBuffer ++ [d] := by
  have hc : (cleanup s).isPaused = true := by
    cases hes : s.es <;> simp [cleanup, hes, h]
  have hl : (launch render url (cleanup s)).isPaused = true := by
    simp [launch, initializeEventSource, hc]
  exact ⟨hc, hl, by simp [onmessage, hl], by simp [onmessage, hl]⟩

/-- Witness for C9 at a paused initial state. -/
theorem pause_survives_relaunch_witness :
    ({ initialState with isPaused := true } : TMState).isPaused = true ∧
    ((cleanup { initialState with isPaused := true }).isPaused = true ∧
     (launch (fun x => x) "E" (cleanup { initialState with isPaused := true })).isPaused
       = true ∧
     (onmessage (fun x => x) "z"
        (launch (fun x => x) "E" (cleanup { initialState with isPaused := true }))).log
       = (launch (fun x => x) "E" (cleanup { initialState with isPaused := true })).log ∧
     (onmessage (fun x => x) "z"
        (launch (fun x => x) "E" (cleanup { initialState with isPaused := true }))).messageBuffer
       = (launch (fun x => x) "E"
           (cleanup { initialState with isPaused := true })).messageBuffer ++ ["z"]) :=
  ⟨rfl, pause_survives_relaunch (fun x => x) "E" "z" { initialState with isPaused := true } rfl⟩

/-- Claim C10: the teardown on modal dismissal empties the pending buffer
without rendering anything — chunks buffered during a pause are discarded
and never appear in the transcript. -/
theorem dismissal_discards_pending (s : TMState) :
    (cleanup s).messageBuffer = [] ∧
    (cleanup s).log = s.log ∧
    (hiddenHandler s).messageBuffer = [] ∧
    (hiddenHandler s).log = s.log := by
  cases hes : s.es <;> cases hr : s.reloadOnClose <;>
    simp [cleanup, hiddenHandler, hes, hr]
